import Mathlib

/-!
Verification of the mindcraft agent core (goal tracker, spatial memory,
navigator, environment scanner) against its natural-language specification.

The JavaScript sources are shallowly embedded: each class becomes a Lean
structure, each method a pure function from the old state (plus the inputs the
method reads from the environment, such as `Date.now()` timestamps or world
queries) to the new state.  JS in-place mutation of a goal object found by
`findGoal` is modelled by writing the updated record back to the position where
`findGoal` found it.  Timestamp fields that only record `Date.now()` and free-
text context blobs are omitted: no claim depends on them.
-/

namespace Mindcraft

/-! ## Goal tracker (src/src/agent/goal_system.js) -/

/-- A goal record as built by `setMainGoal` / `addSubGoal`.  `progress` is a JS
number, embedded as `ℚ`; `status` is one of the string tags used by the
source. -/
structure Goal where
  id : String
  description : String := ""
  prerequisites : List String := []
  dependencies : List String := []
  status : String := "pending"
  progress : ℚ := 0
  attempts : ℕ := 0
  lastAttemptReason : Option String := none
  needsStrategyRevision : Bool := false
  deriving Repr, DecidableEq

/-- An entry of the strategy-adaptation log pushed by `adaptStrategy`. -/
structure Adaptation where
  goalId : String
  previousAttempts : ℕ
  reason : String
  deriving Repr, DecidableEq

/-- The `GoalSystem` instance state. -/
structure GoalSystem where
  mainGoal : Option Goal := none
  subGoals : List Goal := []
  completedGoals : List Goal := []
  failedGoals : List Goal := []
  strategyAdaptations : List Adaptation := []
  deriving Repr, DecidableEq

/-- `setMainGoal(goal)`: installs the singleton main goal; the id is generated
from the current time (`Date.now()`), passed in as `now`. -/
def setMainGoal (s : GoalSystem) (goal : String) (now : ℕ) : GoalSystem × String :=
  let id := "goal_" ++ toString now
  ({ s with mainGoal := some { id := id, description := goal, status := "active" } }, id)

/-- `addSubGoal(description, prerequisites, dependencies)`. -/
def addSubGoal (s : GoalSystem) (description : String)
    (prerequisites dependencies : List String) (now : ℕ) : GoalSystem × String :=
  let id := "subgoal_" ++ toString now ++ "_" ++ toString s.subGoals.length
  let sub : Goal :=
    { id := id, description := description, prerequisites := prerequisites,
      dependencies := dependencies }
  ({ s with subGoals := s.subGoals ++ [sub] }, id)

/-- `findGoal(goalId)`: the main goal when its id matches, else the first
matching subgoal. -/
def findGoal (s : GoalSystem) (goalId : String) : Option Goal :=
  match s.mainGoal with
  | some m => if m.id = goalId then some m else s.subGoals.find? (fun g => g.id == goalId)
  | none => s.subGoals.find? (fun g => g.id == goalId)

/-- Replace the first goal with the given id in a list (the JS code mutates the
object returned by `Array.find`, which is the first match). -/
def updateFirst (gs : List Goal) (goalId : String) (g' : Goal) : List Goal :=
  match gs with
  | [] => []
  | g :: rest => if g.id = goalId then g' :: rest else g :: updateFirst rest goalId g'

/-- Write back an updated goal record to the slot `findGoal` reads it from:
the main goal if its id matches, else the first matching subgoal. -/
def setGoal (s : GoalSystem) (goalId : String) (g' : Goal) : GoalSystem :=
  match s.mainGoal with
  | some m =>
      if m.id = goalId then { s with mainGoal := some g' }
      else { s with subGoals := updateFirst s.subGoals goalId g' }
  | none => { s with subGoals := updateFirst s.subGoals goalId g' }

/-- The summand contributed by one subgoal inside `updateMainGoalProgress`:
`goal.status === 'completed' ? 100 : goal.progress`. -/
def subGoalContribution (g : Goal) : ℚ :=
  if g.status = "completed" then 100 else g.progress

/-- The `status !== 'completed' && status !== 'failed'` filter used to build
`activeSubGoals`. -/
def isActiveStatus (g : Goal) : Bool :=
  g.status != "completed" && g.status != "failed"

/-- `updateMainGoalProgress()`: recompute the main goal's progress from the
current subgoal collection. -/
def updateMainGoalProgress (s : GoalSystem) : GoalSystem :=
  match s.mainGoal with
  | none => s
  | some m =>
      let activeSubGoals := s.subGoals.filter isActiveStatus
      if activeSubGoals.length = 0 then
        if s.subGoals.length > 0 then { s with mainGoal := some { m with progress := 100 } }
        else s
      else
        let totalProgress := (s.subGoals.map subGoalContribution).sum
        let m' := { m with progress := (⌊totalProgress / (s.subGoals.length : ℚ)⌋ : ℚ) }
        { s with mainGoal := some m' }

/-- `updateGoalProgress(goalId, progress)`: store the given progress value on
the goal (no clamping in the source), then recompute the main goal's progress
when the target is not the main goal itself. -/
def updateGoalProgress (s : GoalSystem) (goalId : String) (progress : ℚ) : GoalSystem :=
  match findGoal s goalId with
  | none => s
  | some g =>
      let s' := setGoal s goalId { g with progress := progress }
      match s'.mainGoal with
      | some m => if goalId ≠ m.id then updateMainGoalProgress s' else s'
      | none => s'

/-- `adaptStrategy(goal)`: append an adaptation record and mark the goal
`needs_revision`.  Called with the already-incremented attempt counter, so
`previousAttempts` records that incremented value. -/
def adaptStrategy (s : GoalSystem) (g : Goal) : GoalSystem :=
  let adaptation : Adaptation :=
    { goalId := g.id, previousAttempts := g.attempts,
      reason := g.lastAttemptReason.getD "Too many failures" }
  let s' := { s with strategyAdaptations := s.strategyAdaptations ++ [adaptation] }
  setGoal s' g.id { g with needsStrategyRevision := true, status := "needs_revision" }

/-- `recordFailedAttempt(goalId, reason)`: increment the attempt counter,
remember the reason, and trigger `adaptStrategy` once attempts exceed 3. -/
def recordFailedAttempt (s : GoalSystem) (goalId reason : String) : GoalSystem :=
  match findGoal s goalId with
  | none => s
  | some g =>
      let g' := { g with attempts := g.attempts + 1, lastAttemptReason := some reason }
      let s' := setGoal s goalId g'
      if g'.attempts > 3 then adaptStrategy s' g' else s'

/-- `completeGoal(goalId)`: mark completed, snapshot into `completedGoals`,
remove from the active subgoal collection when it is not the main goal, then
recompute main-goal progress. -/
def completeGoal (s : GoalSystem) (goalId : String) : GoalSystem :=
  match findGoal s goalId with
  | none => s
  | some g =>
      let g' := { g with status := "completed" }
      let s1 := setGoal s goalId g'
      let s2 := { s1 with completedGoals := s1.completedGoals ++ [g'] }
      let isMain := match s2.mainGoal with
        | some m => m.id == goalId
        | none => false
      let s3 :=
        if isMain then s2
        else { s2 with subGoals := s2.subGoals.filter (fun h => h.id != goalId) }
      updateMainGoalProgress s3

/-- `failGoal(goalId, reason)`: the failure analogue of `completeGoal`. -/
def failGoal (s : GoalSystem) (goalId : String) : GoalSystem :=
  match findGoal s goalId with
  | none => s
  | some g =>
      let g' := { g with status := "failed" }
      let s1 := setGoal s goalId g'
      let s2 := { s1 with failedGoals := s1.failedGoals ++ [g'] }
      let isMain := match s2.mainGoal with
        | some m => m.id == goalId
        | none => false
      let s3 :=
        if isMain then s2
        else { s2 with subGoals := s2.subGoals.filter (fun h => h.id != goalId) }
      updateMainGoalProgress s3

/-- `getPendingPrerequisites(goalId)`: prerequisites whose goals exist and are
not completed.  The JS filter predicate `preReqGoal && preReqGoal.status !==
'completed'` is falsy for a missing id, so unresolved ids are dropped. -/
def getPendingPrerequisites (s : GoalSystem) (goalId : String) : List String :=
  match findGoal s goalId with
  | none => []
  | some g =>
      g.prerequisites.filter (fun preReqId =>
        match findGoal s preReqId with
        | some preReqGoal => preReqGoal.status != "completed"
        | none => false)

/-- `canStartGoal(goalId)`: no pending prerequisite and no unmet dependency.
A missing dependency id counts as unmet (`!depGoal || ...`), while a missing
prerequisite id is dropped by `getPendingPrerequisites`. -/
def canStartGoal (s : GoalSystem) (goalId : String) : Bool :=
  match findGoal s goalId with
  | none => false
  | some g =>
      if (getPendingPrerequisites s goalId).length > 0 then false
      else
        let unmetDependencies := g.dependencies.filter (fun depId =>
          match findGoal s depId with
          | none => true
          | some depGoal => depGoal.status != "completed")
        unmetDependencies.length = 0


/-! ## Spatial memory (src/src/agent/enhanced_memory.js)

Positions are JS numbers, embedded as `ℚ`.  `Date.now()` timestamp fields and
the free-form context blobs are omitted; the transient spatial context (which
`updateSpatialContext` rebuilds from live world queries) is abstracted to the
fields the claims can observe. -/

/-- A 3-component position vector. -/
structure Vec3 where
  x : ℚ := 0
  y : ℚ := 0
  z : ℚ := 0
  deriving Repr, DecidableEq

/-- An entry of `this.locations`, as written by `rememberPlace`. -/
structure LocationEntry where
  position : Vec3
  biome : Option String := none
  nearbyBlocks : List String := []
  deriving Repr, DecidableEq

/-- An entry of `this.regions`, as written by `defineRegion`. -/
structure RegionEntry where
  boundsMin : Vec3
  boundsMax : Vec3
  features : List String := []
  subLocations : List String := []
  deriving Repr, DecidableEq

/-- An entry of `this.landmarks`, as written by `addLandmark`. -/
structure LandmarkEntry where
  position : Vec3
  description : String := ""
  kind : String := "natural"
  deriving Repr, DecidableEq

/-- An obstacle found by the navigator's `identifyObstacles` pre-scan. -/
structure NavObstacle where
  position : Vec3
  blockType : String
  index : ℕ
  deriving Repr, DecidableEq

/-- An entry of `this.paths`, as written by `rememberPath`.  The navigator
passes `this.currentPath?.waypoints`, which may be `undefined`, hence the
`Option`s. -/
structure PathEntry where
  waypoints : Option (List Vec3) := none
  obstacles : Option (List NavObstacle) := none
  useCount : ℕ := 0
  deriving Repr, DecidableEq

/-- The transient `this.spatialContext` snapshot, abstracted to its identity:
no claim inspects its fields, only whether `loadJson` leaves it alone. -/
structure SpatialContext where
  position : Vec3
  biome : String := ""
  deriving Repr, DecidableEq

/-- The `EnhancedMemoryBank` instance state.  JS objects keyed by name are
embedded as association lists. -/
structure EnhancedMemoryBank where
  locations : List (String × LocationEntry) := []
  regions : List (String × RegionEntry) := []
  landmarks : List (String × LandmarkEntry) := []
  paths : List (String × PathEntry) := []
  spatialContext : Option SpatialContext := none
  lastUpdate : Option ℕ := none
  deriving Repr, DecidableEq

/-- Association-list lookup, modelling a JS object property read. -/
def tableGet {α : Type} (t : List (String × α)) (key : String) : Option α :=
  (t.find? (fun kv => kv.1 == key)).map (fun kv => kv.2)

/-- Association-list upsert, modelling a JS object property write: replace the
existing binding in place, or append a new one. -/
def tableSet {α : Type} (t : List (String × α)) (key : String) (v : α) :
    List (String × α) :=
  match t with
  | [] => [(key, v)]
  | kv :: rest =>
      if kv.1 = key then (key, v) :: rest else kv :: tableSet rest key v

/-- `rememberPlace(name, x, y, z, context)`. -/
def rememberPlace (m : EnhancedMemoryBank) (name : String) (x y z : ℚ)
    (biome : Option String) (nearbyBlocks : List String) : EnhancedMemoryBank :=
  let entry : LocationEntry :=
    { position := ⟨x, y, z⟩, biome := biome, nearbyBlocks := nearbyBlocks }
  { m with locations := tableSet m.locations name entry }

/-- `recallPlace(name)`. -/
def recallPlace (m : EnhancedMemoryBank) (name : String) : Option LocationEntry :=
  tableGet m.locations name

/-- `addLandmark(name, position, description, type)`. -/
def addLandmark (m : EnhancedMemoryBank) (name : String) (position : Vec3)
    (description : String) (kind : String) : EnhancedMemoryBank :=
  let entry : LandmarkEntry :=
    { position := position, description := description, kind := kind }
  { m with landmarks := tableSet m.landmarks name entry }

/-- `rememberPath(from, to, waypoints, obstacles)`: upsert under the key
`from ++ "->" ++ to` with the use count of the existing entry (or 0) plus 1. -/
def rememberPath (m : EnhancedMemoryBank) (fromKey toKey : String)
    (waypoints : Option (List Vec3)) (obstacles : Option (List NavObstacle)) :
    EnhancedMemoryBank :=
  let pathKey := fromKey ++ "->" ++ toKey
  let oldUseCount := ((tableGet m.paths pathKey).map PathEntry.useCount).getD 0
  let entry : PathEntry :=
    { waypoints := waypoints, obstacles := obstacles, useCount := oldUseCount + 1 }
  { m with paths := tableSet m.paths pathKey entry }

/-- The record returned by `getJson()` / accepted by `loadJson(json)`.  A field
holds `none` when the key is absent (or a falsy value) in the JSON object. -/
structure MemoryJson where
  locations : Option (List (String × LocationEntry)) := none
  regions : Option (List (String × RegionEntry)) := none
  landmarks : Option (List (String × LandmarkEntry)) := none
  paths : Option (List (String × PathEntry)) := none
  deriving Repr, DecidableEq

/-- `getJson()`: the four tables, verbatim. -/
def getJson (m : EnhancedMemoryBank) : MemoryJson :=
  { locations := some m.locations, regions := some m.regions,
    landmarks := some m.landmarks, paths := some m.paths }

/-- `loadJson(json)`: for each of the four tables, overwrite the table when the
key is present (`if (json.locations) ...`), otherwise leave it unchanged.  No
other instance state is touched. -/
def loadJson (m : EnhancedMemoryBank) (json : MemoryJson) : EnhancedMemoryBank :=
  let m1 := match json.locations with
    | some t => { m with locations := t }
    | none => m
  let m2 := match json.regions with
    | some t => { m1 with regions := t }
    | none => m1
  let m3 := match json.landmarks with
    | some t => { m2 with landmarks := t }
    | none => m2
  match json.paths with
  | some t => { m3 with paths := t }
  | none => m3

/-! ## Navigator (src/src/agent/enhanced_navigation.js)

The external pathfinder and the live bot are collaborators: their responses
(`getPathTo` outcome, per-checkpoint `goto` outcomes, sampled positions, the
progress fraction computed by `calculatePathProgress` from the sampled
position) enter the model as observation inputs.  The `setInterval` progress
monitor is tracked by the `monitorActive` flag, set when the timer is created
and cleared where the source calls `clearInterval`.  The returned target trace
records each checkpoint handed to `pathfinder.goto`, for specification
purposes only. -/

/-- The stuck-detection bookkeeping (`this.stuckDetection`). -/
structure StuckDetection where
  lastProgress : ℚ := 0
  stuckTime : ℕ := 0
  stuckThreshold : ℕ := 5000
  deriving Repr, DecidableEq

/-- One entry of `this.pathHistory`. -/
structure PathHistoryEntry where
  start : Vec3
  endPos : Vec3
  successful : Bool
  error : Option String := none
  deriving Repr, DecidableEq

/-- A planned path (`planPathWithContext`'s `path` object). -/
structure NavPath where
  waypoints : List Vec3 := []
  checkpoints : List Vec3 := []
  obstacles : List NavObstacle := []
  contextualMarkers : List String := []
  deriving Repr, DecidableEq

/-- The navigator instance state (the fields of `EnhancedNavigation` the
claims observe; `this.memory` is the owned memory bank). -/
structure NavState where
  currentPath : Option NavPath := none
  pathHistory : List PathHistoryEntry := []
  lastPosition : Option Vec3 := none
  stuckDetection : StuckDetection := {}
  memory : EnhancedMemoryBank := {}
  monitorActive : Bool := false
  deriving Repr, DecidableEq

/-- How one call to the external `bot.pathfinder.getPathTo` resolves. -/
inductive PlanOutcome where
  | success (waypoints : List Vec3)
  | nonSuccess (status : String)
  | throws (msg : String)
  deriving Repr, DecidableEq

/-- `options.checkpointInterval || 5`: `undefined` and `0` both yield 5. -/
def resolveCheckpointInterval (o : Option ℕ) : ℕ :=
  match o with
  | some n => if n = 0 then 5 else n
  | none => 5

/-- Structural core of `everyNth`: take the head, skip the next `n - 1`
elements, recurse.  `fuel` bounds the recursion depth; every call site passes
`fuel = l.length`, which always suffices since each step consumes at least one
list element. -/
def everyNthAux {α : Type} (n : ℕ) : ℕ → List α → List α
  | 0, _ => []
  | _, [] => []
  | fuel + 1, a :: rest => a :: everyNthAux n fuel (rest.drop (n - 1))

/-- The checkpoint loop `for (let i = 0; i < waypoints.length; i += n)`:
every `n`-th element starting at index 0.  Call sites always pass `n ≥ 1`
(see `resolveCheckpointInterval`). -/
def everyNth {α : Type} (l : List α) (n : ℕ) : List α :=
  everyNthAux n l.length l

/-- `block.name.includes('air')`. -/
def nameIncludesAir (name : String) : Bool :=
  String.containsSubstr name "air".toSubstring

/-- `identifyObstacles(waypoints)`: for `i` in `0 .. length-2`, report the
block occupying `waypoints[i+1]` when it exists and its name does not contain
"air".  `world` is the bot's `blockAt` collaborator. -/
def identifyObstacles (world : Vec3 → Option String) (waypoints : List Vec3) :
    List NavObstacle :=
  (List.range (waypoints.length - 1)).filterMap (fun i =>
    match waypoints[i + 1]? with
    | none => none
    | some next =>
        match world next with
        | none => none
        | some blockName =>
            if nameIncludesAir blockName then none
            else some { position := next, blockType := blockName, index := i })

/-- `planPathWithContext(target, options)`: a thrown collaborator error is
re-raised as a planning error; a non-success status leaves the initial empty
`path` object untouched (the decoration only runs on `status === 'success'`);
on success the waypoints are decorated with checkpoints (every `n`-th
waypoint), the obstacle pre-scan and contextual markers.  `markers` stands for
the result of `generateContextualMarkers`, a live-bot query. -/
def planPathWithContext (world : Vec3 → Option String) (outcome : PlanOutcome)
    (checkpointInterval : Option ℕ) (markers : List String) :
    Except String NavPath :=
  match outcome with
  | .throws msg => .error ("Failed to plan path: " ++ msg)
  | .nonSuccess _ => .ok {}
  | .success ws =>
      let n := resolveCheckpointInterval checkpointInterval
      .ok { waypoints := ws,
            checkpoints := everyNth ws n,
            obstacles := identifyObstacles world ws,
            contextualMarkers := markers }

/-- `updateNavigationProgress()`, one firing of the progress-monitor timer.
`currentPos` is the sampled bot position and `progress` the chord fraction
`calculatePathProgress` computes from it (supplied as an observation, since it
involves a square root of live positions).  Without a current path or last
position the tick is a no-op.  `handleStuckState` only logs, so reaching the
threshold changes no state. -/
def updateNavigationProgress (st : NavState) (currentPos : Vec3) (progress : ℚ) :
    NavState :=
  match st.currentPath, st.lastPosition with
  | some _, some _ =>
      let sd := st.stuckDetection
      if |progress - sd.lastProgress| < 1 / 100 then
        { st with
            stuckDetection :=
              { sd with stuckTime := sd.stuckTime + 1000, lastProgress := progress },
            lastPosition := some currentPos }
      else
        { st with
            stuckDetection := { sd with stuckTime := 0, lastProgress := progress },
            lastPosition := some currentPos }
  | _, _ => st

/-- Squared Euclidean distance.  The source compares
`calculateDistance(p, q) > 2`; for nonnegative radicands this is equivalent to
`dist2 p q > 4`, which avoids the irrational square root. -/
def dist2 (p q : Vec3) : ℚ :=
  (p.x - q.x) ^ 2 + (p.y - q.y) ^ 2 + (p.z - q.z) ^ 2

/-- What the environment does during one checkpoint leg: the cooperative
interrupt flag at the loop head, the monitor samples that fire while
travelling, how `pathfinder.goto` resolves, and the bot position measured by
the arrival verification. -/
structure CkptObs where
  interrupt : Bool := false
  ticks : List (Vec3 × ℚ) := []
  gotoError : Option String := none
  posAfter : Vec3 := {}
  deriving Repr

/-- The `for (const checkpoint of path.checkpoints)` loop body of
`executePathWithContext`: interrupt check, `moveToCheckpoint` (its `goto`
failure re-thrown with a prefix), arrival verification against the fixed
tolerance 2 (`dist2 > 4`).  Returns the raised error (if any), the state, and
the trace of targets handed to the pathfinder. -/
def execCheckpoints (obs : ℕ → CkptObs) :
    List Vec3 → ℕ → NavState → Option String × NavState × List Vec3
  | [], _, st => (none, st, [])
  | c :: rest, i, st =>
      let o := obs i
      if o.interrupt then (some "Navigation interrupted", st, [])
      else
        let st' := o.ticks.foldl (fun acc t => updateNavigationProgress acc t.1 t.2) st
        match o.gotoError with
        | some msg => (some ("Failed to reach checkpoint: " ++ msg), st', [c])
        | none =>
            if dist2 o.posAfter c > 4 then
              (some "Navigation verification failed: Off course", st', [c])
            else
              let r := execCheckpoints obs rest (i + 1) st'
              (r.1, r.2.1, c :: r.2.2)

/-- The floored coordinate key
`Math.floor(x) + "," + Math.floor(y) + "," + Math.floor(z)` used for the
memory bank's path records. -/
def floorKey (p : Vec3) : String :=
  toString ⌊p.x⌋ ++ "," ++ toString ⌊p.y⌋ ++ "," ++ toString ⌊p.z⌋

/-- `recordSuccessfulPath(start, end)`: push a successful history entry and
upsert the memory bank's path record under the floored coordinate keys. -/
def recordSuccessfulPath (st : NavState) (startP endP : Vec3) : NavState :=
  let entry : PathHistoryEntry := { start := startP, endPos := endP, successful := true }
  let st1 := { st with pathHistory := st.pathHistory ++ [entry] }
  let mem' := rememberPath st1.memory (floorKey startP) (floorKey endP)
    (st1.currentPath.map NavPath.waypoints) (st1.currentPath.map NavPath.obstacles)
  { st1 with memory := mem' }

/-- `recordFailedPath(start, end, error)`: push a failed history entry; the
reusable path cache is not touched. -/
def recordFailedPath (st : NavState) (startP endP : Vec3) (msg : String) :
    NavState :=
  let entry : PathHistoryEntry :=
    { start := startP, endPos := endP, successful := false, error := some msg }
  { st with pathHistory := st.pathHistory ++ [entry] }

/-- `executePathWithContext(path, options)`: reject an empty waypoint list,
set the in-flight state and start the monitor timer, run the checkpoint loop,
record the outcome, and in the `finally` block cancel the timer and clear
`this.currentPath` on every exit of the `try`. -/
def executePathWithContext (path : NavPath) (startP botPos : Vec3)
    (obs : ℕ → CkptObs) (st : NavState) :
    Except String Bool × NavState × List Vec3 :=
  if path.waypoints.isEmpty then (.error "Invalid path provided", st, [])
  else
    let st1 := { st with currentPath := some path, lastPosition := some botPos,
                         monitorActive := true }
    let r := execCheckpoints obs path.checkpoints 0 st1
    let endP := path.waypoints.getLastD {}
    match r.1 with
    | none =>
        let st2 := recordSuccessfulPath r.2.1 startP endP
        (.ok true, { st2 with monitorActive := false, currentPath := none }, r.2.2)
    | some msg =>
        let st2 := recordFailedPath r.2.1 startP endP msg
        (.error msg, { st2 with monitorActive := false, currentPath := none }, r.2.2)

/-- `moveToLocation(target, options)`: plan, then execute.  A planning error
propagates to the caller before any execution state is touched. -/
def moveToLocation (world : Vec3 → Option String) (outcome : PlanOutcome)
    (checkpointInterval : Option ℕ) (markers : List String)
    (startP botPos : Vec3) (obs : ℕ → CkptObs) (st : NavState) :
    Except String Bool × NavState × List Vec3 :=
  match planPathWithContext world outcome checkpointInterval markers with
  | .error msg => (.error msg, st, [])
  | .ok path => executePathWithContext path startP botPos obs st


/-! ## Environment scanner sightlines (src/unnamed/part_000)

Block positions are integer grid coordinates; `world x y z` is the bot's
`blockAt` collaborator returning the occupying block's name, or `none` when
the query yields no block (skipped silently by the source). -/

/-- A recorded sightline obstacle: the blocking block's name, its position and
the ray step at which it was met. -/
structure SightObstacle where
  blockName : String
  position : Int × Int × Int
  distance : ℕ
  deriving Repr, DecidableEq

/-- The per-direction result object of `checkSightline`. -/
structure Sightline where
  direction : Int × Int
  clear : Bool
  distance : ℕ
  obstacle : Option SightObstacle
  deriving Repr, DecidableEq

/-- The y offsets examined at each ray step:
`for (let y = start.y - 1; y <= start.y + 2; y++)` iterates four block
levels, `start.y - 1` through `start.y + 2`. -/
def slabOffsets : List Int := [-1, 0, 1, 2]

/-- The inner column check of one ray step: the first block among the slab
offsets that exists and is neither `air` nor `cave_air`, with the y level it
was found at. -/
def firstObstacleInSlab (world : Int → Int → Int → Option String)
    (x sy z : Int) : Option (String × Int) :=
  (slabOffsets.filterMap (fun dy =>
    match world x (sy + dy) z with
    | none => none
    | some blockName =>
        if blockName ≠ "air" ∧ blockName ≠ "cave_air" then some (blockName, sy + dy)
        else none)).head?

/-- The ray march `for (let dist = 1; dist <= maxDist; dist++)` of
`checkSightline`, started at `dist` with `remaining` steps left
(`dist + remaining = 17` at every call reachable from `checkSightline`). -/
def checkSightlineFrom (world : Int → Int → Int → Option String)
    (sx sy sz dx dz : Int) : ℕ → ℕ → Sightline
  | _, 0 => { direction := (dx, dz), clear := true, distance := 16, obstacle := none }
  | dist, remaining + 1 =>
      let x := sx + dx * (dist : Int)
      let z := sz + dz * (dist : Int)
      match firstObstacleInSlab world x sy z with
      | some nb =>
          { direction := (dx, dz), clear := false, distance := dist,
            obstacle := some { blockName := nb.1, position := (x, nb.2, z), distance := dist } }
      | none => checkSightlineFrom world sx sy sz dx dz (dist + 1) remaining

/-- `checkSightline(start, dx, dz)` with `maxDist = 16`. -/
def checkSightline (world : Int → Int → Int → Option String)
    (sx sy sz dx dz : Int) : Sightline :=
  checkSightlineFrom world sx sy sz dx dz 1 16

/-- The 8 compass/diagonal directions checked by `analyzeSightlines`. -/
def sightlineDirections : List (Int × Int) :=
  [(1, 0), (1, 1), (0, 1), (-1, 1), (-1, 0), (-1, -1), (0, -1), (1, -1)]

/-- The `sightlines` object built by `analyzeSightlines`. -/
structure Sightlines where
  clearPaths : List Sightline
  obstacles : List (Option SightObstacle)
  visibilityMap : List ((Int × Int) × Sightline)
  deriving Repr, DecidableEq

/-- `analyzeSightlines()`: run `checkSightline` for each of the 8 directions,
partitioning the results into clear paths and obstacles. -/
def analyzeSightlines (world : Int → Int → Int → Option String)
    (sx sy sz : Int) : Sightlines :=
  let results := sightlineDirections.map
    (fun d => (d, checkSightline world sx sy sz d.1 d.2))
  { clearPaths := (results.map Prod.snd).filter (fun s => s.clear),
    obstacles := ((results.map Prod.snd).filter (fun s => !s.clear)).map
      (fun s => s.obstacle),
    visibilityMap := results }

/-! ## Concrete states and environments used by witnesses and counterexamples -/

/-- The spec scenario's starting state: a main goal with two fresh subgoals,
as built by `setMainGoal` and two `addSubGoal` calls (ids spelled out). -/
def demoTracker2 : GoalSystem :=
  { mainGoal := some { id := "goal_main", description := "build a shelter",
                       status := "active" },
    subGoals := [{ id := "subgoal_a", description := "gather wood" },
                 { id := "subgoal_b", description := "craft planks" }] }

/-- First subgoal updated to progress 40. -/
def demoTracker3 : GoalSystem := updateGoalProgress demoTracker2 "subgoal_a" 40

/-- Second subgoal updated to progress 60. -/
def demoTracker4 : GoalSystem := updateGoalProgress demoTracker3 "subgoal_b" 60

/-- The 40-subgoal completed. -/
def demoTracker5 : GoalSystem := completeGoal demoTracker4 "subgoal_a"

/-- A main goal over subgoals at progress 40 and 60 (the spec scenario's
configuration just before the first recomputation). -/
def meanDemo : GoalSystem :=
  { mainGoal := some { id := "goal_main", description := "build a shelter",
                       status := "active" },
    subGoals := [{ id := "subgoal_a", progress := 40 },
                 { id := "subgoal_b", progress := 60 }] }

/-- Specification measure: how many strategy-adaptation records reference a
given goal id. -/
def adaptationsFor (s : GoalSystem) (goalId : String) : ℕ :=
  (s.strategyAdaptations.filter (fun a => a.goalId == goalId)).length

/-- A tracker holding one goal whose prerequisite id resolves to nothing. -/
def prereqDemo : GoalSystem :=
  { subGoals := [{ id := "g1", prerequisites := ["missing"] }] }

/-- A tracker with a completed goal gating another via both lists. -/
def depDemo : GoalSystem :=
  { subGoals :=
      [{ id := "done", status := "completed" },
       { id := "g2", prerequisites := ["done"], dependencies := ["done"] }] }

/-- A main goal with a single fresh subgoal. -/
def clampDemo : GoalSystem :=
  { mainGoal := some { id := "goal_main", description := "mine", status := "active" },
    subGoals := [{ id := "subgoal_a", description := "dig" }] }

/-- `updateGoalProgress` called with the out-of-range value 150. -/
def clampDemoAfter : GoalSystem := updateGoalProgress clampDemo "subgoal_a" 150

/-- Three failed attempts recorded on `g1`. -/
def retryDemo3 : GoalSystem :=
  recordFailedAttempt (recordFailedAttempt (recordFailedAttempt prereqDemo "g1" "lava")
    "g1" "lava") "g1" "lava"

/-- A fourth failed attempt recorded on `g1`. -/
def retryDemo4 : GoalSystem := recordFailedAttempt retryDemo3 "g1" "lava"

/-- An empty world: every block query returns no block. -/
def worldEmpty : Vec3 → Option String := fun _ => none

/-- A seven-waypoint route along the x axis. -/
def wsDemo : List Vec3 :=
  [⟨0, 0, 0⟩, ⟨1, 0, 0⟩, ⟨2, 0, 0⟩, ⟨3, 0, 0⟩, ⟨4, 0, 0⟩, ⟨5, 0, 0⟩, ⟨6, 0, 0⟩]

/-- The plan produced for `wsDemo` with the default checkpoint interval. -/
def pathDemo : NavPath :=
  { waypoints := wsDemo, checkpoints := everyNth wsDemo 5,
    obstacles := identifyObstacles worldEmpty wsDemo, contextualMarkers := [] }

/-- A fully cooperative environment for `pathDemo`: never interrupted, every
`goto` succeeds, and the bot arrives exactly at each of the two checkpoints. -/
def obsDemo : ℕ → CkptObs :=
  fun i => if i = 0 then { posAfter := ⟨0, 0, 0⟩ } else { posAfter := ⟨5, 0, 0⟩ }

/-- A navigator carrying stale stuck bookkeeping from an earlier navigation. -/
def staleStuck : NavState :=
  { stuckDetection := { lastProgress := 1 / 2, stuckTime := 4000 } }

/-- A world whose only block sits at y offset +2 on the first ray step of the
(+x) direction from the origin. -/
def worldHigh : Int → Int → Int → Option String :=
  fun x y z => if x = 1 ∧ y = 2 ∧ z = 0 then some "stone" else none

/-- A world whose only block sits at y offset -1 on the first ray step of the
(+x) direction from the origin. -/
def worldLow : Int → Int → Int → Option String :=
  fun x y z => if x = 1 ∧ y = -1 ∧ z = 0 then some "stone" else none

/-! ## Helper lemmas -/

theorem findGoal_id {s : GoalSystem} {goalId : String} {g : Goal}
    (h : findGoal s goalId = some g) : g.id = goalId := by
  unfold findGoal at h
  rcases hm : s.mainGoal with _ | m <;> rw [hm] at h <;> dsimp only at h
  · simpa using List.find?_some h
  · by_cases hid : m.id = goalId
    · rw [if_pos hid] at h
      cases h
      exact hid
    · rw [if_neg hid] at h
      simpa using List.find?_some h

theorem find?_updateFirst {gs : List Goal} {goalId : String} {g g' : Goal}
    (hf : gs.find? (fun x => x.id == goalId) = some g) (hid : g'.id = goalId) :
    (updateFirst gs goalId g').find? (fun x => x.id == goalId) = some g' := by
  induction gs with
  | nil => simp [List.find?] at hf
  | cons a rest ih =>
    unfold updateFirst
    by_cases ha : a.id = goalId
    · rw [if_pos ha]
      simp [List.find?_cons, hid]
    · rw [if_neg ha]
      rw [List.find?_cons_of_neg _ (by simpa using ha)] at hf
      rw [List.find?_cons_of_neg _ (by simpa using ha)]
      exact ih hf

theorem findGoal_setGoal {s : GoalSystem} {goalId : String} {g g' : Goal}
    (h : findGoal s goalId = some g) (hid : g'.id = goalId) :
    findGoal (setGoal s goalId g') goalId = some g' := by
  unfold findGoal setGoal
  unfold findGoal at h
  rcases hm : s.mainGoal with _ | m <;> rw [hm] at h <;> dsimp only at h ⊢
  · exact find?_updateFirst h hid
  · by_cases hmid : m.id = goalId
    · rw [if_pos hmid] at h ⊢
      dsimp only
      rw [if_pos hid]
    · rw [if_neg hmid] at h ⊢
      dsimp only
      rw [if_neg hmid]
      exact find?_updateFirst h hid

theorem setGoal_strategyAdaptations (s : GoalSystem) (goalId : String) (g' : Goal) :
    (setGoal s goalId g').strategyAdaptations = s.strategyAdaptations := by
  unfold setGoal
  rcases hm : s.mainGoal with _ | m <;> dsimp only
  split <;> rfl

/-! ## C9: getJson / loadJson round-trip -/

/-- C9: loading `getJson m` into any bank `b` restores the four tables of `m`
verbatim and leaves all other state of `b` untouched; a JSON record with all
four keys absent leaves the bank entirely unchanged. -/
theorem getJson_loadJson_roundTrip :
    (∀ m b : EnhancedMemoryBank,
        loadJson b (getJson m) =
          { b with locations := m.locations, regions := m.regions,
                   landmarks := m.landmarks, paths := m.paths })
    ∧ (∀ b : EnhancedMemoryBank, loadJson b {} = b) := by
  constructor
  · intro m b
    rfl
  · intro b
    rfl

/-! ## Further goal-tracker lemmas -/

theorem updateMainGoalProgress_eq {s : GoalSystem} {m : Goal}
    (hm : s.mainGoal = some m)
    (hact : (s.subGoals.filter isActiveStatus).length ≠ 0) :
    updateMainGoalProgress s =
      { s with mainGoal := some { m with progress :=
          (⌊(s.subGoals.map subGoalContribution).sum / (s.subGoals.length : ℚ)⌋ : ℚ) } } := by
  unfold updateMainGoalProgress
  rw [hm]
  dsimp only
  rw [if_neg hact]

theorem recordFailedAttempt_step {s : GoalSystem} {goalId : String} (reason : String)
    {g : Goal} (hg : findGoal s goalId = some g) (hlow : ¬ g.attempts + 1 > 3) :
    recordFailedAttempt s goalId reason =
      setGoal s goalId { g with attempts := g.attempts + 1,
                                lastAttemptReason := some reason } := by
  unfold recordFailedAttempt
  rw [hg]
  dsimp only
  rw [if_neg hlow]

theorem recordFailedAttempt_trigger {s : GoalSystem} {goalId : String} (reason : String)
    {g : Goal} (hg : findGoal s goalId = some g) (hhi : g.attempts + 1 > 3) :
    recordFailedAttempt s goalId reason =
      adaptStrategy
        (setGoal s goalId { g with attempts := g.attempts + 1,
                                   lastAttemptReason := some reason })
        { g with attempts := g.attempts + 1, lastAttemptReason := some reason } := by
  unfold recordFailedAttempt
  rw [hg]
  dsimp only
  rw [if_pos hhi]

/-! ## C1 -/

/-- C1 counterexample: on the spec's own scenario — main goal, subgoals at
progress 40 and 60, recomputed main progress 50 — calling `completeGoal` on
the 40-subgoal makes the recomputation yield 60, not the claimed 80: the
completed subgoal is removed from the subgoal collection before the
recomputation, so it contributes nothing (rather than 100) to the mean. -/
theorem mainGoalProgress_scenario_cex :
    demoTracker4.mainGoal.map Goal.progress = some 50 ∧
    demoTracker5.mainGoal.map Goal.progress = some 60 ∧ (60 : ℚ) ≠ 80 := by
  refine ⟨?_, ?_, by norm_num⟩ <;>
  · simp +decide [demoTracker5, demoTracker4, demoTracker3, demoTracker2,
      updateGoalProgress, completeGoal, findGoal,
      setGoal, updateFirst, updateMainGoalProgress, isActiveStatus, subGoalContribution,
      List.find?] <;> norm_num

/-- C1 (amended): whenever the main goal exists and at least one subgoal in
the current collection is neither completed nor failed, `updateMainGoalProgress`
sets the main goal's progress to the floor of the mean over the subgoals
currently in the collection of (100 if completed else its progress).  Because
`completeGoal` removes a completed subgoal from the collection before
recomputing, a completed subgoal drops out of this mean instead of counting as
100: the spec scenario ends at 60, not 80. -/
theorem mainGoalProgress_mean_of_active (s : GoalSystem) (m : Goal)
    (hm : s.mainGoal = some m)
    (hact : (s.subGoals.filter isActiveStatus).length ≠ 0) :
    (updateMainGoalProgress s).mainGoal.map Goal.progress =
      some (⌊(s.subGoals.map subGoalContribution).sum / (s.subGoals.length : ℚ)⌋ : ℚ) := by
  rw [updateMainGoalProgress_eq hm hact]
  rfl

/-- Witness for C1's amended theorem: on subgoals at progress 40 and 60 the
recomputed main-goal progress is `⌊(40+60)/2⌋ = 50`. -/
theorem mainGoalProgress_mean_of_active_w :
    (updateMainGoalProgress meanDemo).mainGoal.map Goal.progress = some 50 := by
  have h := mainGoalProgress_mean_of_active meanDemo
    { id := "goal_main", description := "build a shelter", status := "active" }
    rfl (by decide)
  rw [h]
  simp +decide [meanDemo, subGoalContribution]
  norm_num

/-! ## C2 -/

/-- C2 counterexample: a goal whose prerequisite id `"missing"` resolves to no
goal at all can nevertheless start — `canStartGoal` returns true, not the
claimed false: `getPendingPrerequisites` drops unresolved prerequisite ids
(`preReqGoal && …` is falsy), so missing prerequisites are fail-open. -/
theorem canStartGoal_missingPrereq_cex :
    findGoal prereqDemo "missing" = none ∧ canStartGoal prereqDemo "g1" = true := by
  constructor <;> rfl

/-- C2 (amended): `canStartGoal` of a nonexistent id is false.  For an
existing goal it returns true iff every *resolving* prerequisite id points to
a completed goal (prerequisite ids that resolve to nothing are ignored —
fail-open) and every dependency id resolves to an existing completed goal
(missing dependency ids block — fail-closed). -/
theorem canStartGoal_characterization (s : GoalSystem) (goalId : String) :
    (findGoal s goalId = none → canStartGoal s goalId = false) ∧
    (∀ g, findGoal s goalId = some g →
      (canStartGoal s goalId = true ↔
        (∀ p ∈ g.prerequisites,
            ((findGoal s p).all fun pg => pg.status == "completed") = true) ∧
        (∀ d ∈ g.dependencies,
            ((findGoal s d).any fun dg => dg.status == "completed") = true))) := by
  constructor
  · intro h
    unfold canStartGoal
    rw [h]
  · intro g hg
    unfold canStartGoal getPendingPrerequisites
    rw [hg]
    dsimp only
    by_cases hlen : (g.prerequisites.filter (fun preReqId =>
        match findGoal s preReqId with
        | some preReqGoal => preReqGoal.status != "completed"
        | none => false)).length > 0
    · rw [if_pos hlen]
      simp only [Bool.false_eq_true, false_iff, not_and]
      intro hpre _
      have hnil : (g.prerequisites.filter (fun preReqId =>
          match findGoal s preReqId with
          | some preReqGoal => preReqGoal.status != "completed"
          | none => false)) = [] := by
        rw [List.filter_eq_nil_iff]
        intro p hp
        have hthis := hpre p hp
        rcases hfp : findGoal s p with _ | pg <;> rw [hfp] at hthis <;> simp_all
      rw [hnil] at hlen
      simp at hlen
    · rw [if_neg hlen]
      simp only [decide_eq_true_eq, List.length_eq_zero, List.filter_eq_nil_iff]
      have hnil : ∀ p ∈ g.prerequisites,
          ¬ (match findGoal s p with
             | some preReqGoal => preReqGoal.status != "completed"
             | none => false) = true := by
        rw [← List.filter_eq_nil_iff]
        rcases hfil : (g.prerequisites.filter (fun preReqId =>
            match findGoal s preReqId with
            | some preReqGoal => preReqGoal.status != "completed"
            | none => false)) with _ | ⟨a, l⟩
        · rfl
        · rw [hfil] at hlen
          simp at hlen
      constructor
      · intro hq
        constructor
        · intro p hp
          have hthis := hnil p hp
          rcases hfp : findGoal s p with _ | pg <;> rw [hfp] at hthis <;> simp_all
        · intro d hd
          have hthis := hq d hd
          rcases hfd : findGoal s d with _ | dg <;> rw [hfd] at hthis <;> simp_all
      · rintro ⟨_, hdep⟩
        intro d hd
        have hthis := hdep d hd
        rcases hfd : findGoal s d with _ | dg <;> rw [hfd] at hthis <;> simp_all

/-- Witness for C2's amended theorem: in `depDemo`, goal `g2` gates on the
completed goal `done` through both lists and may start. -/
theorem canStartGoal_characterization_w :
    canStartGoal depDemo "g2" = true := by
  have h := (canStartGoal_characterization depDemo "g2").2
    { id := "g2", prerequisites := ["done"], dependencies := ["done"] } rfl
  exact h.mpr ⟨by decide, by decide⟩

theorem updateMainGoalProgress_shape {s : GoalSystem} {m : Goal}
    (hm : s.mainGoal = some m) :
    ∃ q : ℚ, updateMainGoalProgress s =
      { s with mainGoal := some { m with progress := q } } := by
  unfold updateMainGoalProgress
  rw [hm]
  dsimp only
  by_cases h1 : (s.subGoals.filter isActiveStatus).length = 0
  · rw [if_pos h1]
    by_cases h2 : s.subGoals.length > 0
    · rw [if_pos h2]
      exact ⟨100, rfl⟩
    · rw [if_neg h2]
      refine ⟨m.progress, ?_⟩
      have he : ({ m with progress := m.progress } : Goal) = m := rfl
      rw [he, ← hm]
  · rw [if_neg h1]
    exact ⟨_, rfl⟩

theorem findGoal_mainProgress {s : GoalSystem} {m : Goal} {q : ℚ} {goalId : String}
    (hm : s.mainGoal = some m) (hne : m.id ≠ goalId) :
    findGoal { s with mainGoal := some { m with progress := q } } goalId =
      findGoal s goalId := by
  unfold findGoal
  rw [hm]
  dsimp only
  rw [if_neg hne, if_neg hne]

theorem findGoal_adaptations (s : GoalSystem) (x : List Adaptation) (id2 : String) :
    findGoal { s with strategyAdaptations := x } id2 = findGoal s id2 := rfl

theorem adaptationsFor_setGoal (s : GoalSystem) (goalId : String) (g' : Goal)
    (id2 : String) :
    adaptationsFor (setGoal s goalId g') id2 = adaptationsFor s id2 := by
  unfold adaptationsFor
  rw [setGoal_strategyAdaptations]

theorem adaptStrategy_eq (s : GoalSystem) (g : Goal) :
    adaptStrategy s g =
      setGoal { s with strategyAdaptations := s.strategyAdaptations ++
          [{ goalId := g.id, previousAttempts := g.attempts,
             reason := g.lastAttemptReason.getD "Too many failures" }] }
        g.id { g with needsStrategyRevision := true, status := "needs_revision" } := rfl

theorem findGoal_setGoal_key {s : GoalSystem} {k goalId : String} {g g' : Goal}
    (hk : k = goalId) (h : findGoal s goalId = some g) (hid : g'.id = goalId) :
    findGoal (setGoal s k g') goalId = some g' := by
  subst hk
  exact findGoal_setGoal h hid

theorem findGoal_adaptStrategy {s : GoalSystem} {g : Goal} {goalId : String}
    (hf : findGoal s goalId = some g) (hgid : g.id = goalId) :
    findGoal (adaptStrategy s g) goalId =
      some { g with needsStrategyRevision := true, status := "needs_revision" } := by
  have hf2 : findGoal { s with strategyAdaptations := s.strategyAdaptations ++
      [{ goalId := g.id, previousAttempts := g.attempts,
         reason := g.lastAttemptReason.getD "Too many failures" }] } goalId = some g := by
    rw [findGoal_adaptations]
    exact hf
  have hgid' :
      ({ g with needsStrategyRevision := true, status := "needs_revision" } : Goal).id
        = goalId := hgid
  rw [adaptStrategy_eq]
  exact findGoal_setGoal_key hgid hf2 hgid'

/-! ## C3 -/

/-- C3 counterexample: `updateGoalProgress` with the out-of-range value 150
stores 150 verbatim on the subgoal, and the recomputed main-goal progress
becomes `⌊150/1⌋ = 150` as well — no clamping to [0,100] exists anywhere. -/
theorem updateGoalProgress_noClamp_cex :
    (findGoal clampDemoAfter "subgoal_a").map Goal.progress = some 150 ∧
    clampDemoAfter.mainGoal.map Goal.progress = some 150 ∧ ¬ (150 : ℚ) ≤ 100 := by
  refine ⟨?_, ?_, by norm_num⟩ <;>
  · simp +decide [clampDemoAfter, clampDemo, updateGoalProgress,
      findGoal, setGoal, updateFirst, updateMainGoalProgress, isActiveStatus,
      subGoalContribution, List.find?]

/-- C3 (amended): goal progress is *not* clamped — `updateGoalProgress` stores
exactly the numeric value it is given, so stored progress can leave [0,100].
What does hold: whenever every subgoal's stored progress lies in [0,100] (and
the main goal's current progress does too), the recomputed main-goal progress
stays in [0,100]. -/
theorem goalProgress_unclamped_and_derived_bounds :
    (∀ (s : GoalSystem) (goalId : String) (p : ℚ) (g : Goal),
        findGoal s goalId = some g →
        (findGoal (updateGoalProgress s goalId p) goalId).map Goal.progress = some p)
    ∧ (∀ (s : GoalSystem) (m : Goal), s.mainGoal = some m →
        (∀ g ∈ s.subGoals, 0 ≤ g.progress ∧ g.progress ≤ 100) →
        0 ≤ m.progress → m.progress ≤ 100 →
        ∃ q, (updateMainGoalProgress s).mainGoal.map Goal.progress = some q ∧
          0 ≤ q ∧ q ≤ 100) := by
  constructor
  · intro s goalId p g hg
    have hid0 : g.id = goalId := findGoal_id hg
    have hid : ({ g with progress := p } : Goal).id = goalId := hid0
    have hs' := findGoal_setGoal hg hid
    unfold updateGoalProgress
    rw [hg]
    dsimp only
    rcases hm : (setGoal s goalId { g with progress := p }).mainGoal with _ | m
    · dsimp only
      rw [hs']
      rfl
    · dsimp only
      by_cases hne : goalId ≠ m.id
      · rw [if_pos hne]
        obtain ⟨q, hq⟩ := updateMainGoalProgress_shape hm
        rw [hq, findGoal_mainProgress hm (fun h => hne h.symm), hs']
        rfl
      · rw [if_neg hne]
        rw [hs']
        rfl
  · intro s m hm hsub h0 h100
    unfold updateMainGoalProgress
    rw [hm]
    dsimp only
    by_cases h1 : (s.subGoals.filter isActiveStatus).length = 0
    · rw [if_pos h1]
      by_cases h2 : s.subGoals.length > 0
      · rw [if_pos h2]
        exact ⟨100, rfl, by norm_num, by norm_num⟩
      · rw [if_neg h2]
        refine ⟨m.progress, ?_, h0, h100⟩
        rw [hm]
        rfl
    · rw [if_neg h1]
      refine ⟨(⌊(s.subGoals.map subGoalContribution).sum / (s.subGoals.length : ℚ)⌋ : ℚ),
        rfl, ?_, ?_⟩
      · have hlen : 0 < s.subGoals.length := by
          rcases Nat.eq_zero_or_pos s.subGoals.length with h | h
          · exact absurd (by simp [List.length_eq_zero.mp h]) h1
          · exact h
        have hsum : 0 ≤ (s.subGoals.map subGoalContribution).sum := by
          apply List.sum_nonneg
          intro x hx
          obtain ⟨g, hgmem, rfl⟩ := List.mem_map.mp hx
          unfold subGoalContribution
          split
          · norm_num
          · exact (hsub g hgmem).1
        have hdiv : 0 ≤ (s.subGoals.map subGoalContribution).sum / (s.subGoals.length : ℚ) :=
          div_nonneg hsum (by positivity)
        exact_mod_cast Int.floor_nonneg.mpr hdiv
      · have hlen : 0 < s.subGoals.length := by
          rcases Nat.eq_zero_or_pos s.subGoals.length with h | h
          · exact absurd (by simp [List.length_eq_zero.mp h]) h1
          · exact h
        have hsum : (s.subGoals.map subGoalContribution).sum ≤ (s.subGoals.length : ℚ) * 100 := by
          have hb : ∀ x ∈ s.subGoals.map subGoalContribution, x ≤ (100 : ℚ) := by
            intro x hx
            obtain ⟨g, hgmem, rfl⟩ := List.mem_map.mp hx
            unfold subGoalContribution
            split
            · norm_num
            · exact (hsub g hgmem).2
          calc (s.subGoals.map subGoalContribution).sum
              ≤ (s.subGoals.map subGoalContribution).length • (100 : ℚ) :=
                List.sum_le_card_nsmul _ _ hb
            _ = (s.subGoals.length : ℚ) * 100 := by
                rw [List.length_map, nsmul_eq_mul]
        have hdiv : (s.subGoals.map subGoalContribution).sum / (s.subGoals.length : ℚ) ≤ 100 := by
          rw [div_le_iff₀ (by exact_mod_cast hlen)]
          linarith
        calc ((⌊(s.subGoals.map subGoalContribution).sum / (s.subGoals.length : ℚ)⌋ : ℚ))
            ≤ (s.subGoals.map subGoalContribution).sum / (s.subGoals.length : ℚ) :=
              Int.floor_le _
          _ ≤ 100 := hdiv

/-- Witness for C3's amended theorem: storing 42 on a fresh subgoal yields
exactly 42. -/
theorem goalProgress_unclamped_w :
    (findGoal (updateGoalProgress clampDemo "subgoal_a" 42) "subgoal_a").map Goal.progress
      = some 42 :=
  goalProgress_unclamped_and_derived_bounds.1 clampDemo "subgoal_a" 42
    { id := "subgoal_a", description := "dig" } rfl

/-! ## C8 -/

/-- C8: for every goal present in the tracker with zero recorded attempts and
no adaptation record referencing it, after 3 calls to `recordFailedAttempt`
there is still no adaptation record; after the 4th call the goal's status is
`needs_revision` and exactly one adaptation record references its id (the
trigger is attempts > 3, firing first on the 4th attempt). -/
theorem recordFailedAttempt_threshold (s : GoalSystem) (goalId r1 r2 r3 r4 : String)
    (g : Goal) (hg : findGoal s goalId = some g) (h0 : g.attempts = 0)
    (hlog : adaptationsFor s goalId = 0) :
    adaptationsFor (recordFailedAttempt (recordFailedAttempt
      (recordFailedAttempt s goalId r1) goalId r2) goalId r3) goalId = 0 ∧
    (findGoal (recordFailedAttempt (recordFailedAttempt (recordFailedAttempt
      (recordFailedAttempt s goalId r1) goalId r2) goalId r3) goalId r4) goalId).map
      Goal.status = some "needs_revision" ∧
    adaptationsFor (recordFailedAttempt (recordFailedAttempt (recordFailedAttempt
      (recordFailedAttempt s goalId r1) goalId r2) goalId r3) goalId r4) goalId = 1 := by
  have hid : g.id = goalId := findGoal_id hg
  have hid1 :
      ({ g with attempts := g.attempts + 1, lastAttemptReason := some r1 } : Goal).id
        = goalId := hid
  have hid2 :
      ({ g with attempts := g.attempts + 1 + 1, lastAttemptReason := some r2 } : Goal).id
        = goalId := hid
  have hid3 :
      ({ g with attempts := g.attempts + 1 + 1 + 1, lastAttemptReason := some r3 } : Goal).id
        = goalId := hid
  have hid4 :
      ({ g with attempts := g.attempts + 1 + 1 + 1 + 1, lastAttemptReason := some r4 } : Goal).id
        = goalId := hid
  have e1 := recordFailedAttempt_step r1 hg (by omega)
  have hg1 : findGoal (recordFailedAttempt s goalId r1) goalId =
      some { g with attempts := g.attempts + 1, lastAttemptReason := some r1 } := by
    rw [e1]
    exact findGoal_setGoal hg hid1
  have a1 : adaptationsFor (recordFailedAttempt s goalId r1) goalId = 0 := by
    rw [e1, adaptationsFor_setGoal]
    exact hlog
  have e2 := recordFailedAttempt_step r2 hg1 (by simp; omega)
  have hg2 : findGoal (recordFailedAttempt (recordFailedAttempt s goalId r1) goalId r2)
      goalId = some { g with attempts := g.attempts + 1 + 1,
                             lastAttemptReason := some r2 } := by
    rw [e2]
    exact findGoal_setGoal hg1 hid2
  have a2 : adaptationsFor (recordFailedAttempt (recordFailedAttempt s goalId r1)
      goalId r2) goalId = 0 := by
    rw [e2, adaptationsFor_setGoal]
    exact a1
  have e3 := recordFailedAttempt_step r3 hg2 (by simp; omega)
  have hg3 : findGoal (recordFailedAttempt (recordFailedAttempt
      (recordFailedAttempt s goalId r1) goalId r2) goalId r3) goalId =
      some { g with attempts := g.attempts + 1 + 1 + 1,
                    lastAttemptReason := some r3 } := by
    rw [e3]
    exact findGoal_setGoal hg2 hid3
  have a3 : adaptationsFor (recordFailedAttempt (recordFailedAttempt
      (recordFailedAttempt s goalId r1) goalId r2) goalId r3) goalId = 0 := by
    rw [e3, adaptationsFor_setGoal]
    exact a2
  have e4 := recordFailedAttempt_trigger r4 hg3 (by simp)
  have hg4 : findGoal (setGoal (recordFailedAttempt (recordFailedAttempt
      (recordFailedAttempt s goalId r1) goalId r2) goalId r3) goalId
        { g with attempts := g.attempts + 1 + 1 + 1 + 1,
                 lastAttemptReason := some r4 }) goalId =
      some { g with attempts := g.attempts + 1 + 1 + 1 + 1,
                    lastAttemptReason := some r4 } :=
    findGoal_setGoal hg3 hid4
  refine ⟨a3, ?_, ?_⟩
  · rw [e4]
    rw [findGoal_adaptStrategy hg4 hid4]
    rfl
  · rw [e4, adaptStrategy_eq, adaptationsFor_setGoal]
    unfold adaptationsFor
    dsimp only
    rw [List.filter_append, List.length_append]
    have ha : ((setGoal (recordFailedAttempt (recordFailedAttempt
        (recordFailedAttempt s goalId r1) goalId r2) goalId r3) goalId
          { g with attempts := g.attempts + 1 + 1 + 1 + 1,
                   lastAttemptReason := some r4 }).strategyAdaptations.filter
        (fun a => a.goalId == goalId)).length = 0 := by
      have := adaptationsFor_setGoal (recordFailedAttempt (recordFailedAttempt
        (recordFailedAttempt s goalId r1) goalId r2) goalId r3) goalId
          { g with attempts := g.attempts + 1 + 1 + 1 + 1,
                   lastAttemptReason := some r4 } goalId
      unfold adaptationsFor at this
      rw [this]
      exact a3
    rw [ha]
    simp [hid]

/-- Witness for C8: on the concrete tracker `prereqDemo`, three failures leave
no adaptation record; the fourth marks `g1` as `needs_revision` with exactly
one adaptation record. -/
theorem recordFailedAttempt_threshold_w :
    adaptationsFor retryDemo3 "g1" = 0 ∧
    (findGoal retryDemo4 "g1").map Goal.status = some "needs_revision" ∧
    adaptationsFor retryDemo4 "g1" = 1 :=
  recordFailedAttempt_threshold prereqDemo "g1" "lava" "lava" "lava" "lava"
    { id := "g1", prerequisites := ["missing"] } rfl rfl rfl

/-! ## Navigator lemmas -/

theorem updateNavigationProgress_frame (st : NavState) (pos : Vec3) (p : ℚ) :
    (updateNavigationProgress st pos p).currentPath = st.currentPath ∧
    (updateNavigationProgress st pos p).pathHistory = st.pathHistory ∧
    (updateNavigationProgress st pos p).memory = st.memory ∧
    (updateNavigationProgress st pos p).monitorActive = st.monitorActive := by
  unfold updateNavigationProgress
  rcases h1 : st.currentPath with _ | cp <;> rcases h2 : st.lastPosition with _ | lp <;>
    dsimp only
  · exact ⟨h1, rfl, rfl, rfl⟩
  · exact ⟨h1, rfl, rfl, rfl⟩
  · exact ⟨h1, rfl, rfl, rfl⟩
  · split <;> exact ⟨rfl, rfl, rfl, rfl⟩

theorem ticksFold_frame (ts : List (Vec3 × ℚ)) :
    ∀ st : NavState,
      ((ts.foldl (fun acc t => updateNavigationProgress acc t.1 t.2) st).currentPath
          = st.currentPath) ∧
      ((ts.foldl (fun acc t => updateNavigationProgress acc t.1 t.2) st).pathHistory
          = st.pathHistory) ∧
      ((ts.foldl (fun acc t => updateNavigationProgress acc t.1 t.2) st).memory
          = st.memory) ∧
      ((ts.foldl (fun acc t => updateNavigationProgress acc t.1 t.2) st).monitorActive
          = st.monitorActive) := by
  induction ts with
  | nil => intro st; exact ⟨rfl, rfl, rfl, rfl⟩
  | cons t rest ih =>
      intro st
      rw [List.foldl_cons]
      obtain ⟨i1, i2, i3, i4⟩ := ih (updateNavigationProgress st t.1 t.2)
      obtain ⟨u1, u2, u3, u4⟩ := updateNavigationProgress_frame st t.1 t.2
      exact ⟨i1.trans u1, i2.trans u2, i3.trans u3, i4.trans u4⟩

theorem execCheckpoints_frame (obs : ℕ → CkptObs) :
    ∀ (cs : List Vec3) (i : ℕ) (st : NavState),
      ((execCheckpoints obs cs i st).2.1.currentPath = st.currentPath) ∧
      ((execCheckpoints obs cs i st).2.1.pathHistory = st.pathHistory) ∧
      ((execCheckpoints obs cs i st).2.1.memory = st.memory) ∧
      ((execCheckpoints obs cs i st).2.1.monitorActive = st.monitorActive) := by
  intro cs
  induction cs with
  | nil => intro i st; exact ⟨rfl, rfl, rfl, rfl⟩
  | cons c rest ih =>
      intro i st
      unfold execCheckpoints
      by_cases hint : (obs i).interrupt
      · rw [if_pos hint]
        exact ⟨rfl, rfl, rfl, rfl⟩
      · rw [if_neg hint]
        dsimp only
        obtain ⟨t1, t2, t3, t4⟩ := ticksFold_frame (obs i).ticks st
        rcases hgoto : (obs i).gotoError with _ | msg <;> dsimp only
        · split
          · exact ⟨t1, t2, t3, t4⟩
          · obtain ⟨e1, e2, e3, e4⟩ := ih (i + 1)
              ((obs i).ticks.foldl (fun acc t => updateNavigationProgress acc t.1 t.2) st)
            exact ⟨e1.trans t1, e2.trans t2, e3.trans t3, e4.trans t4⟩
        · exact ⟨t1, t2, t3, t4⟩

theorem execCheckpoints_stuck (obs : ℕ → CkptObs)
    (hticks : ∀ i, (obs i).ticks = []) :
    ∀ (cs : List Vec3) (i : ℕ) (st : NavState),
      (execCheckpoints obs cs i st).2.1.stuckDetection = st.stuckDetection := by
  intro cs
  induction cs with
  | nil => intro i st; rfl
  | cons c rest ih =>
      intro i st
      unfold execCheckpoints
      by_cases hint : (obs i).interrupt
      · rw [if_pos hint]
      · rw [if_neg hint]
        dsimp only
        rw [hticks i]
        dsimp only [List.foldl]
        rcases hgoto : (obs i).gotoError with _ | msg
        · dsimp only
          split
          · rfl
          · exact ih (i + 1) st
        · rfl

theorem recordSuccessfulPath_stuck (st : NavState) (a b : Vec3) :
    (recordSuccessfulPath st a b).stuckDetection = st.stuckDetection := rfl

theorem recordFailedPath_stuck (st : NavState) (a b : Vec3) (msg : String) :
    (recordFailedPath st a b msg).stuckDetection = st.stuckDetection := rfl

theorem executePath_stuck (path : NavPath) (startP botPos : Vec3)
    (obs : ℕ → CkptObs) (st : NavState) (hticks : ∀ i, (obs i).ticks = []) :
    (executePathWithContext path startP botPos obs st).2.1.stuckDetection =
      st.stuckDetection := by
  unfold executePathWithContext
  split
  · rfl
  · dsimp only
    rcases hr : (execCheckpoints obs path.checkpoints 0
        { st with currentPath := some path, lastPosition := some botPos,
                  monitorActive := true }).1 with _ | msg <;> dsimp only
    · rw [recordSuccessfulPath_stuck]
      rw [execCheckpoints_stuck obs hticks]
    · rw [recordFailedPath_stuck]
      rw [execCheckpoints_stuck obs hticks]

/-! ## C4 -/

/-- C4: whenever the external pathfinder reports a non-success status (budget
exhaustion included) or throws, `moveToLocation` raises an error to its
caller: the result is an error, the navigator state is untouched, and no
movement target is ever issued — no partial plan is acted on or returned. -/
theorem moveToLocation_planningFailure (world : Vec3 → Option String)
    (outcome : PlanOutcome) (ck : Option ℕ) (markers : List String)
    (startP botPos : Vec3) (obs : ℕ → CkptObs) (st : NavState)
    (h : ∀ ws, outcome ≠ PlanOutcome.success ws) :
    ∃ msg, moveToLocation world outcome ck markers startP botPos obs st =
      (.error msg, st, []) := by
  cases outcome with
  | success ws => exact absurd rfl (h ws)
  | nonSuccess status => exact ⟨"Invalid path provided", rfl⟩
  | throws msg => exact ⟨"Failed to plan path: " ++ msg, rfl⟩

/-- Witness for C4: a pathfinder that reports status `noPath` makes
`moveToLocation` fail with an error, leaving the fresh navigator untouched. -/
theorem moveToLocation_planningFailure_w :
    ∃ msg, moveToLocation worldEmpty (.nonSuccess "noPath") none [] {} {} obsDemo {} =
      (.error msg, ({} : NavState), []) :=
  moveToLocation_planningFailure worldEmpty (.nonSuccess "noPath") none [] {} {} obsDemo {}
    (fun _ h => PlanOutcome.noConfusion h)

/-! ## C5 -/

/-- C5: on every exit of `executePathWithContext` once execution starts (a
non-empty waypoint list) — success, checkpoint-verification failure,
pathfinder error, or cooperative interruption, all of which are covered by
quantifying over every observation sequence — the `finally` block leaves the
progress-monitor timer cancelled and the in-flight current path cleared. -/
theorem executePath_releasesResources (path : NavPath) (startP botPos : Vec3)
    (obs : ℕ → CkptObs) (st : NavState) (h : path.waypoints ≠ []) :
    (executePathWithContext path startP botPos obs st).2.1.monitorActive = false ∧
    (executePathWithContext path startP botPos obs st).2.1.currentPath = none := by
  unfold executePathWithContext
  rw [if_neg (by simpa using h)]
  dsimp only
  rcases hr : (execCheckpoints obs path.checkpoints 0
      { st with currentPath := some path, lastPosition := some botPos,
                monitorActive := true }).1 with _ | msg <;> dsimp only <;>
    exact ⟨rfl, rfl⟩

/-- Witness for C5: a concrete successful execution over `pathDemo` ends with
the monitor flag down and no current path. -/
theorem executePath_releasesResources_w :
    (executePathWithContext pathDemo {} {} obsDemo staleStuck).2.1.monitorActive = false ∧
    (executePathWithContext pathDemo {} {} obsDemo staleStuck).2.1.currentPath = none :=
  executePath_releasesResources pathDemo {} {} obsDemo staleStuck
    (by simp [pathDemo, wsDemo])

/-! ## C6 -/

/-- C6 counterexample: `moveToLocation` performs no reset of the
stuck-detection bookkeeping.  Starting a navigation on a navigator carrying a
stale accumulated stuck duration of 4000 ms leaves that accumulator at 4000,
not at the claimed 0. -/
theorem stuckReset_cex :
    (moveToLocation worldEmpty (.nonSuccess "noPath") none [] {} {} obsDemo
        staleStuck).2.1.stuckDetection.stuckTime = 4000 ∧ (4000 : ℕ) ≠ 0 := by
  exact ⟨rfl, by decide⟩

/-- C6 (amended): `moveToLocation` never touches the stuck-detection state —
it is *not* reset at the start of a navigation.  The last-observed progress
and accumulated stuck duration carry over from the previous navigation and
change only when a monitor tick fires; in any run in which no tick fires the
whole stuck-detection record is carried over unchanged. -/
theorem moveToLocation_noStuckReset (world : Vec3 → Option String)
    (outcome : PlanOutcome) (ck : Option ℕ) (markers : List String)
    (startP botPos : Vec3) (obs : ℕ → CkptObs) (st : NavState)
    (hticks : ∀ i, (obs i).ticks = []) :
    (moveToLocation world outcome ck markers startP botPos obs st).2.1.stuckDetection =
      st.stuckDetection := by
  cases outcome with
  | success ws => exact executePath_stuck _ _ _ _ _ hticks
  | nonSuccess status => exact executePath_stuck _ _ _ _ _ hticks
  | throws msg => rfl

/-- Witness for C6's amended theorem: a tick-free navigation started on the
stale navigator leaves its stuck bookkeeping exactly as it was. -/
theorem moveToLocation_noStuckReset_w :
    (moveToLocation worldEmpty (.success wsDemo) none [] {} {} obsDemo
        staleStuck).2.1.stuckDetection = staleStuck.stuckDetection :=
  moveToLocation_noStuckReset worldEmpty (.success wsDemo) none [] {} {} obsDemo
    staleStuck (fun i => by unfold obsDemo; split <;> rfl)

/-! ## Checkpoint sampling lemmas -/

theorem everyNthAux_getElem? {α : Type} (n : ℕ) (hn : 1 ≤ n) :
    ∀ (fuel : ℕ) (l : List α), l.length ≤ fuel → ∀ (j : ℕ),
      (everyNthAux n fuel l)[j]? = l[j * n]? := by
  intro fuel
  induction fuel with
  | zero =>
      intro l hfuel j
      have hl : l = [] := List.length_eq_zero.mp (Nat.le_zero.mp hfuel)
      subst hl
      simp [everyNthAux]
  | succ fuel ih =>
      intro l hfuel j
      cases l with
      | nil => simp [everyNthAux]
      | cons a rest =>
          cases j with
          | zero => simp [everyNthAux]
          | succ j' =>
              have hdrop : (rest.drop (n - 1)).length ≤ fuel := by
                simp only [List.length_drop]
                simp only [List.length_cons] at hfuel
                omega
              show (a :: everyNthAux n fuel (rest.drop (n - 1)))[j' + 1]? =
                (a :: rest)[(j' + 1) * n]?
              rw [List.getElem?_cons_succ, ih (rest.drop (n - 1)) hdrop j',
                List.getElem?_drop]
              have hmul : (j' + 1) * n = (n - 1 + j' * n) + 1 := by
                obtain ⟨n', rfl⟩ : ∃ n', n = n' + 1 := ⟨n - 1, by omega⟩
                simp only [Nat.add_sub_cancel]
                ring
              rw [hmul, List.getElem?_cons_succ]

theorem everyNth_getElem? {α : Type} (l : List α) (n : ℕ) (hn : 1 ≤ n) (j : ℕ) :
    (everyNth l n)[j]? = l[j * n]? :=
  everyNthAux_getElem? n hn l.length l le_rfl j

/-! ## All-success execution -/

theorem execCheckpoints_allOk (obs : ℕ → CkptObs) :
    ∀ (cs : List Vec3) (i : ℕ) (st : NavState),
      (∀ k c, cs[k]? = some c → (obs (i + k)).interrupt = false ∧
        (obs (i + k)).gotoError = none ∧ ¬ dist2 ((obs (i + k)).posAfter) c > 4) →
      (execCheckpoints obs cs i st).1 = none ∧
      (execCheckpoints obs cs i st).2.2 = cs := by
  intro cs
  induction cs with
  | nil => intro i st _; exact ⟨rfl, rfl⟩
  | cons c rest ih =>
      intro i st h
      obtain ⟨hint, hgoto, hdist⟩ := by
        have hh := h 0 c (by simp)
        rwa [Nat.add_zero] at hh
      unfold execCheckpoints
      rw [if_neg (by simp [hint])]
      dsimp only
      rw [hgoto]
      dsimp only
      rw [if_neg hdist]
      have hrest := ih (i + 1)
        ((obs i).ticks.foldl (fun acc t => updateNavigationProgress acc t.1 t.2) st)
        (fun k c' hk => by
          have hh := h (k + 1) c' (by simpa using hk)
          rwa [show i + (k + 1) = i + 1 + k by omega] at hh)
      exact ⟨hrest.1, by dsimp only; rw [hrest.2]⟩

theorem recordSuccessfulPath_pathHistory (st : NavState) (a b : Vec3) :
    (recordSuccessfulPath st a b).pathHistory =
      st.pathHistory ++ [{ start := a, endPos := b, successful := true }] := rfl

theorem recordSuccessfulPath_memory (st : NavState) (a b : Vec3) :
    (recordSuccessfulPath st a b).memory =
      rememberPath st.memory (floorKey a) (floorKey b)
        (st.currentPath.map NavPath.waypoints)
        (st.currentPath.map NavPath.obstacles) := rfl

theorem tableGet_tableSet {α : Type} (t : List (String × α)) (k : String) (v : α) :
    tableGet (tableSet t k v) k = some v := by
  induction t with
  | nil => simp [tableSet, tableGet, List.find?]
  | cons kv rest ih =>
      unfold tableSet
      by_cases hk : kv.1 = k
      · rw [if_pos hk]
        simp [tableGet, List.find?]
      · rw [if_neg hk]
        unfold tableGet at ih ⊢
        rw [List.find?_cons_of_neg _ (by simpa using hk)]
        exact ih

theorem tableGet_rememberPath (m : EnhancedMemoryBank) (a b : String)
    (w : Option (List Vec3)) (o : Option (List NavObstacle)) :
    tableGet (rememberPath m a b w o).paths (a ++ "->" ++ b) =
      some { waypoints := w, obstacles := o,
             useCount :=
               ((tableGet m.paths (a ++ "->" ++ b)).map PathEntry.useCount).getD 0 + 1 } := by
  unfold rememberPath
  dsimp only
  exact tableGet_tableSet _ _ _

/-! ## C10 -/

/-- C10: for a successfully planned non-empty route with checkpoint interval
`N = options.checkpointInterval || 5`: the checkpoint sequence is exactly the
waypoints at indices 0, N, 2N, …; in particular the first waypoint is always a
checkpoint, and the index of the last waypoint is sampled iff `N` divides
`length − 1`.  A fully cooperative execution succeeds, hands exactly the
checkpoints (and nothing else — in particular not the final waypoint, unless
it is itself a checkpoint) to the pathfinder as movement targets, and still
records a path history entry and a memory-bank path record ending at the
final waypoint. -/
theorem checkpoints_and_execution (world : Vec3 → Option String) (markers : List String)
    (ws : List Vec3) (ck : Option ℕ) (path : NavPath)
    (startP botPos : Vec3) (obs : ℕ → CkptObs) (st : NavState)
    (hplan : planPathWithContext world (.success ws) ck markers = .ok path)
    (hne : ws ≠ [])
    (hok : ∀ k c, path.checkpoints[k]? = some c → (obs k).interrupt = false ∧
      (obs k).gotoError = none ∧ ¬ dist2 ((obs k).posAfter) c > 4) :
    (∀ j, path.checkpoints[j]? = ws[j * resolveCheckpointInterval ck]?) ∧
    path.checkpoints[0]? = ws[0]? ∧
    (((ws.length - 1) % resolveCheckpointInterval ck = 0) ↔
      ∃ j, j * resolveCheckpointInterval ck = ws.length - 1) ∧
    (executePathWithContext path startP botPos obs st).1 = .ok true ∧
    (executePathWithContext path startP botPos obs st).2.2 = path.checkpoints ∧
    (executePathWithContext path startP botPos obs st).2.1.pathHistory.getLast? =
      some { start := startP, endPos := ws.getLastD {}, successful := true } ∧
    (∃ e, tableGet (executePathWithContext path startP botPos obs st).2.1.memory.paths
        (floorKey startP ++ "->" ++ floorKey (ws.getLastD {})) = some e ∧
      e.waypoints = some ws) := by
  have hn1 : 1 ≤ resolveCheckpointInterval ck := by
    unfold resolveCheckpointInterval
    rcases ck with _ | n <;> dsimp only
    · omega
    · split <;> omega
  have hpath : path =
      { waypoints := ws, checkpoints := everyNth ws (resolveCheckpointInterval ck),
        obstacles := identifyObstacles world ws, contextualMarkers := markers } := by
    unfold planPathWithContext at hplan
    dsimp only at hplan
    injection hplan with h
    exact h.symm
  subst hpath
  dsimp only at hok ⊢
  have hidx : ∀ j, (everyNth ws (resolveCheckpointInterval ck))[j]? =
      ws[j * resolveCheckpointInterval ck]? :=
    fun j => everyNth_getElem? ws _ hn1 j
  have hdvd : ((ws.length - 1) % resolveCheckpointInterval ck = 0) ↔
      ∃ j, j * resolveCheckpointInterval ck = ws.length - 1 := by
    constructor
    · intro h
      obtain ⟨c, hc⟩ := Nat.dvd_of_mod_eq_zero h
      exact ⟨c, by rw [hc, Nat.mul_comm]⟩
    · rintro ⟨j, hj⟩
      rw [← hj]
      exact Nat.mul_mod_left j _
  have hempty : ws.isEmpty = false := by
    cases ws
    · exact absurd rfl hne
    · rfl
  have hrun := execCheckpoints_allOk obs (everyNth ws (resolveCheckpointInterval ck)) 0
      { st with
        currentPath :=
          some { waypoints := ws, checkpoints := everyNth ws (resolveCheckpointInterval ck),
                 obstacles := identifyObstacles world ws, contextualMarkers := markers },
        lastPosition := some botPos, monitorActive := true }
      (fun k c hk => by simpa using hok k c hk)
  have hframe := execCheckpoints_frame obs (everyNth ws (resolveCheckpointInterval ck)) 0
      { st with
        currentPath :=
          some { waypoints := ws, checkpoints := everyNth ws (resolveCheckpointInterval ck),
                 obstacles := identifyObstacles world ws, contextualMarkers := markers },
        lastPosition := some botPos, monitorActive := true }
  refine ⟨hidx, by simpa using hidx 0, hdvd, ?_, ?_, ?_, ?_⟩
  all_goals
    unfold executePathWithContext
    simp only [hempty, Bool.false_eq_true, if_false]
    try dsimp only
    rw [hrun.1]
  all_goals try dsimp only
  all_goals
    first
    | rfl
    | exact hrun.2
    | (rw [recordSuccessfulPath_pathHistory, List.getLast?_append_cons]; rfl)
    | (rw [recordSuccessfulPath_memory, hframe.1]
       exact ⟨_, tableGet_rememberPath _ _ _ _ _, rfl⟩)

/-- Witness for C10: on the 7-waypoint demo route with the default interval 5,
execution succeeds and moves exactly to the two checkpoints (indices 0 and 5)
— the final waypoint (index 6) is never a movement target. -/
theorem checkpoints_and_execution_w :
    (executePathWithContext pathDemo {} {} obsDemo {}).1 = .ok true ∧
    (executePathWithContext pathDemo {} {} obsDemo {}).2.2 = pathDemo.checkpoints := by
  have hok : ∀ k c, pathDemo.checkpoints[k]? = some c →
      (obsDemo k).interrupt = false ∧ (obsDemo k).gotoError = none ∧
      ¬ dist2 ((obsDemo k).posAfter) c > 4 := by
    intro k c hk
    have hck : pathDemo.checkpoints = [(⟨0, 0, 0⟩ : Vec3), ⟨5, 0, 0⟩] := rfl
    rw [hck] at hk
    rcases k with _ | _ | k
    · have hc : c = ⟨0, 0, 0⟩ := by simpa using hk.symm
      subst hc
      refine ⟨rfl, rfl, ?_⟩
      norm_num [obsDemo, dist2]
    · have hc : c = ⟨5, 0, 0⟩ := by simpa using hk.symm
      subst hc
      refine ⟨rfl, rfl, ?_⟩
      norm_num [obsDemo, dist2]
    · simp at hk
  have h := checkpoints_and_execution worldEmpty [] wsDemo none pathDemo {} {} obsDemo {}
    rfl (by simp [wsDemo]) hok
  exact ⟨h.2.2.2.1, h.2.2.2.2.1⟩

/-! ## C7 -/

theorem checkSightlineFrom_clear (world : Int → Int → Int → Option String)
    (sx sy sz dx dz : Int) :
    ∀ (remaining dist : ℕ),
      (∀ d : ℕ, dist ≤ d → d < dist + remaining →
        firstObstacleInSlab world (sx + dx * (d : Int)) sy (sz + dz * (d : Int)) = none) →
      checkSightlineFrom world sx sy sz dx dz dist remaining =
        { direction := (dx, dz), clear := true, distance := 16, obstacle := none } := by
  intro remaining
  induction remaining with
  | zero => intro dist h; rfl
  | succ remaining ih =>
      intro dist h
      unfold checkSightlineFrom
      dsimp only
      rw [h dist le_rfl (by omega)]
      exact ih (dist + 1) (fun d h1 h2 => h d (by omega) (by omega))

theorem checkSightlineFrom_blocked (world : Int → Int → Int → Option String)
    (sx sy sz dx dz : Int) :
    ∀ (remaining dist d : ℕ) (nb : String × Int),
      dist ≤ d → d < dist + remaining →
      (∀ d' : ℕ, dist ≤ d' → d' < d →
        firstObstacleInSlab world (sx + dx * (d' : Int)) sy (sz + dz * (d' : Int)) = none) →
      firstObstacleInSlab world (sx + dx * (d : Int)) sy (sz + dz * (d : Int)) = some nb →
      checkSightlineFrom world sx sy sz dx dz dist remaining =
        { direction := (dx, dz), clear := false, distance := d,
          obstacle := some { blockName := nb.1,
                             position := (sx + dx * (d : Int), nb.2, sz + dz * (d : Int)),
                             distance := d } } := by
  intro remaining
  induction remaining with
  | zero => intro dist d nb h1 h2 _ _; omega
  | succ remaining ih =>
      intro dist d nb h1 h2 hclear hblock
      unfold checkSightlineFrom
      dsimp only
      rcases Nat.eq_or_lt_of_le h1 with he | hlt
      · subst he
        rw [hblock]
      · rw [hclear dist le_rfl hlt]
        exact ih (dist + 1) d nb (by omega) (by omega)
          (fun d' a b => hclear d' (by omega) b) hblock

/-- C7 counterexample: the per-step column check spans FOUR block levels
(y offsets −1, 0, +1, +2), not the claimed three.  A world whose only block
sits at offset +2 of the first step blocks the ray, and so does a world whose
only block sits at offset −1 — and no window of three consecutive levels
contains both offset −1 and offset +2. -/
theorem sightline_slab_cex :
    (checkSightline worldHigh 0 0 0 1 0).clear = false ∧
    (checkSightline worldHigh 0 0 0 1 0).distance = 1 ∧
    (checkSightline worldLow 0 0 0 1 0).clear = false ∧
    (checkSightline worldLow 0 0 0 1 0).distance = 1 ∧
    (∀ c : ℤ, ¬ (c ≤ -1 ∧ 2 ≤ c + 2)) := by
  refine ⟨rfl, rfl, rfl, rfl, ?_⟩
  intro c
  omega

/-- C7 (amended): each of the 8 sightline directions ray-marches in unit
steps out to the fixed maximum 16, examining a FOUR-block vertical slab
(y offsets −1..+2) at each step; the first step whose slab contains a block
other than air/cave_air terminates the ray, recording that block's name,
position and step distance; a never-terminating ray is clear with distance
16. -/
theorem checkSightline_spec (world : Int → Int → Int → Option String)
    (sx sy sz dx dz : Int) :
    slabOffsets = [-1, 0, 1, 2] ∧
    ((∀ d : ℕ, 1 ≤ d → d ≤ 16 →
        firstObstacleInSlab world (sx + dx * (d : Int)) sy (sz + dz * (d : Int)) = none) →
      checkSightline world sx sy sz dx dz =
        { direction := (dx, dz), clear := true, distance := 16, obstacle := none })
    ∧ (∀ d : ℕ, 1 ≤ d → d ≤ 16 →
        (∀ d' : ℕ, 1 ≤ d' → d' < d →
          firstObstacleInSlab world (sx + dx * (d' : Int)) sy (sz + dz * (d' : Int)) = none) →
        ∀ nb, firstObstacleInSlab world (sx + dx * (d : Int)) sy (sz + dz * (d : Int)) = some nb →
        checkSightline world sx sy sz dx dz =
          { direction := (dx, dz), clear := false, distance := d,
            obstacle := some { blockName := nb.1,
                               position := (sx + dx * (d : Int), nb.2, sz + dz * (d : Int)),
                               distance := d } }) := by
  refine ⟨rfl, ?_, ?_⟩
  · intro h
    exact checkSightlineFrom_clear world sx sy sz dx dz 16 1
      (fun d h1 h2 => h d h1 (by omega))
  · intro d h1 h16 hclear nb hblock
    exact checkSightlineFrom_blocked world sx sy sz dx dz 16 1 d nb h1 (by omega)
      (fun d' a b => hclear d' a b) hblock

/-- Witness for C7's amended theorem: in the world whose only block is at
step 1, y offset +2, the (+x) ray terminates at distance 1 recording that
block. -/
theorem checkSightline_spec_w :
    checkSightline worldHigh 0 0 0 1 0 =
      { direction := (1, 0), clear := false, distance := 1,
        obstacle := some { blockName := "stone", position := (1, 2, 0), distance := 1 } } := by
  have h := (checkSightline_spec worldHigh 0 0 0 1 0).2.2 1 le_rfl (by norm_num)
    (fun d' h1 h2 => absurd (h1.trans_lt h2) (lt_irrefl 1)) ("stone", 2) rfl
  exact h

end Mindcraft
